import Mathlib

/-!
Verification development for the datadog-utilities repository.

The development shallowly embeds the two entry points that the claims
concern:

* `src/user-inveite-and-disable/src/app.py` — the batch provisioning
  handler (`lambda_handler`, `create_and_invite_user`, `delete_user`,
  `_get_role_id`).
* `src/user-pending-check/src/app/lambda_function.py` — the pending-user
  reporter (`lambda_handler`, `fetch_invite_pending`, `list_users`).

The remote platform, the secret store and S3 are modelled as a functional
environment: each kind of request is answered by a function of the request
parameters.  An organisation name stands for the credential pair selected
for it (the credential pair uniquely determines which organisation's API
answers the call).  Every operation returns, besides its result, the list
of network calls it issued, in issue order.
-/

namespace DatadogUtil

/-- Python `str.strip()`: remove whitespace characters from both ends of
a string.  Modelled over the character list of the string. -/
def pyStrip (s : String) : String :=
  ⟨((s.data.dropWhile Char.isWhitespace).reverse.dropWhile
      Char.isWhitespace).reverse⟩

/-- Python `str.lower()`, modelled as ASCII case folding over the
character list (the role names, emails and status strings the code
compares are ASCII). -/
def pyLower (s : String) : String :=
  ⟨s.data.map Char.toLower⟩

/-- Python `str.endswith(t)`, modelled over the character lists. -/
def pyEndsWith (s t : String) : Bool :=
  t.data.isSuffixOf s.data

/-- One role record as returned by the GET /api/v2/roles listing:
`role["id"]` and `role["attributes"]["name"]`. -/
structure Role where
  id : String
  name : String
deriving DecidableEq, Repr

/-- One user record as seen by the SDK user listing used in `delete_user`:
`u.id` and `u.attributes.email`. -/
structure DirUser where
  id : String
  email : String
deriving DecidableEq, Repr

/-- A network or S3 call issued by the provisioning handler.  The first
`String` argument of each constructor is the organisation whose
credentials authenticate the call. -/
inductive Call where
  | listRoles (org : String)
  | createUser (org email name roleId : String)
  | sendInvite (org userId : String)
  | listUsers (org : String)
  | disableUser (org userId : String)
  | s3Delete (bucket key : String)
deriving DecidableEq, Repr

/-- One CSV row of a batch file as produced by `csv.DictReader`.  A column
missing from the file is modelled as the empty string, matching the
handler's `row.get(col, "")` and `row.get(col) or ""` accesses. -/
structure Row where
  email : String
  name : String
  org : String
  role : String
deriving DecidableEq, Repr

/-- Functional model of the remote responses seen by the provisioning
handler.  `Except Unit` results model a raised exception (transport error
or non-2xx status) as `.error ()`. -/
structure Env where
  rolesResp : String → Except Unit (List Role)
  createResp : (org email name roleId : String) → Except Unit String
  inviteResp : (org userId : String) → Except Unit Unit
  usersResp : String → Except Unit (List DirUser)
  disableResp : (org userId : String) → Except Unit Unit
  s3DeleteResp : (bucket key : String) → Except Unit Unit
  csvRows : (bucket key : String) → List Row
  secretOrgs : List (String × (String × String))

/-- Error raised by `_get_role_id`: a `RuntimeError` when the listing call
returns a status ≥ 300, a `KeyError` when no role name matches. -/
inductive RoleLookupErr where
  | transport
  | notFound
deriving DecidableEq, Repr

/-- Scan of the role listing in `_get_role_id`: the first role whose name
matches the requested name case-insensitively
(`role["attributes"]["name"].lower() == role_name.lower()`). -/
def findRole (roles : List Role) (roleName : String) : Option String :=
  (roles.find? fun r => pyLower r.name == pyLower roleName).map Role.id

/-- Embedding of `_get_role_id` (app.py lines 142–157): issue one role
listing call; on error raise; otherwise return the first case-insensitive
name match, or raise `KeyError` when none matches. -/
def get_role_id (env : Env) (org roleName : String) :
    Except RoleLookupErr String × List Call :=
  match env.rolesResp org with
  | .error _ => (.error .transport, [.listRoles org])
  | .ok roles =>
    match findRole roles roleName with
    | some id => (.ok id, [.listRoles org])
    | none => (.error .notFound, [.listRoles org])

/-- Which of the two remote calls of `create_and_invite_user` raised. -/
inductive CreateInviteErr where
  | createFailed
  | inviteFailed
deriving DecidableEq, Repr

/-- Embedding of `create_and_invite_user` (app.py lines 60–109): create
the user; on success immediately send the invitation referencing the
newly created user id.  Either exception is re-raised to the caller.  No
other call is made: in particular a failed invitation triggers no
compensating deletion of the created user. -/
def create_and_invite_user (env : Env) (org name email roleId : String) :
    Except CreateInviteErr Unit × List Call :=
  match env.createResp org email name roleId with
  | .error _ => (.error .createFailed, [.createUser org email name roleId])
  | .ok userId =>
    match env.inviteResp org userId with
    | .error _ =>
      (.error .inviteFailed, [.createUser org email name roleId, .sendInvite org userId])
    | .ok _ =>
      (.ok (), [.createUser org email name roleId, .sendInvite org userId])

/-- Exception raised out of `delete_user`: the user listing failed, or the
disable call failed. -/
inductive DeleteErr where
  | listFailed
  | disableFailed
deriving DecidableEq, Repr

/-- Normal return of `delete_user`: the matched user was disabled, or no
user matched and only a warning was logged. -/
inductive DeleteResult where
  | disabled
  | notFound
deriving DecidableEq, Repr

/-- First user of the listing whose email matches case-insensitively
(`u.attributes.email.lower() == email.lower()`). -/
def findUserByEmail (users : List DirUser) (email : String) : Option DirUser :=
  users.find? fun u => pyLower u.email == pyLower email

/-- Embedding of `delete_user` (app.py lines 114–137): list the tenant's
users, search the first case-insensitive email match; when none is found
log a warning and return; otherwise disable that user.  Exceptions from
either call propagate. -/
def delete_user (env : Env) (org email : String) :
    Except DeleteErr DeleteResult × List Call :=
  match env.usersResp org with
  | .error _ => (.error .listFailed, [.listUsers org])
  | .ok users =>
    match findUserByEmail users email with
    | none => (.ok .notFound, [.listUsers org])
    | some u =>
      match env.disableResp org u.id with
      | .error _ => (.error .disableFailed, [.listUsers org, .disableUser org u.id])
      | .ok _ => (.ok .disabled, [.listUsers org, .disableUser org u.id])

/-- Role cache (`role_cache: Dict[Tuple[str, str], str] = defaultdict(str)`).
Modelled as a total function with default value `""`: `defaultdict(str)`
answers the empty string for an absent key, and the handler treats an
empty cached value as a miss (`if not role_cache[cache_key]`). -/
def Cache : Type := String × String → String

/-- Store one resolved role id under its `(org_name, role_name)` key. -/
def cacheInsert (c : Cache) (k : String × String) (v : String) : Cache :=
  fun q => if q = k then v else c q

/-- The cache all keys of which are unset, as at the start of one
invocation. -/
def emptyCache : Cache := fun _ => ""

/-- Processing mode of one batch file, decided by its key's suffix. -/
inductive Mode where
  | create
  | delete
deriving DecidableEq, Repr

/-- Embedding of the mode dispatch (app.py line 189): a key ending in
`create_user.csv` is processed in Create mode, one ending in
`delete_user.csv` in Delete mode, any other key is skipped. -/
def modeOf (key : String) : Option Mode :=
  if pyEndsWith key "create_user.csv" then some .create
  else if pyEndsWith key "delete_user.csv" then some .delete
  else none

/-- Outcome recorded (through logs) for one CSV row by the batch loop. -/
inductive RowOutcome where
  | missingEmail
  | missingOrgRole
  | unknownOrg
  | roleLookupFailed (e : RoleLookupErr)
  | createSucceeded
  | createFailed (e : CreateInviteErr)
  | deleteSucceeded
  | deleteUserNotFound
  | deleteFailed (e : DeleteErr)
deriving DecidableEq, Repr

/-- Embedding of the role resolution block of the batch loop (app.py
lines 215–223): on an unset cache entry call `_get_role_id`; a failure is
caught (`continue`) and caches nothing; a success is stored and the
stored value is used.  On a set cache entry no listing call is made. -/
def resolveRole (env : Env) (cache : Cache) (org roleName : String) :
    Except RoleLookupErr String × Cache × List Call :=
  if cache (org, roleName) = "" then
    match get_role_id env org roleName with
    | (.error e, calls) => (.error e, cache, calls)
    | (.ok id, calls) =>
      let cache1 := cacheInsert cache (org, roleName) id
      (.ok (cache1 (org, roleName)), cache1, calls)
  else
    (.ok (cache (org, roleName)), cache, [])

/-- Embedding of one iteration of the row loop (app.py lines 195–235):
validate the email, then org and role, resolve credentials and the role
id, and run the mode-specific flow, catching every exception at the row
boundary. -/
def processRow (env : Env) (orgMap : List (String × (String × String)))
    (mode : Mode) (cache : Cache) (row : Row) :
    RowOutcome × Cache × List Call :=
  let email := pyStrip row.email
  if email = "" then (.missingEmail, cache, [])
  else
    let orgName := pyStrip row.org
    let roleName := pyStrip row.role
    if orgName = "" ∨ roleName = "" then (.missingOrgRole, cache, [])
    else
      match orgMap.lookup orgName with
      | none => (.unknownOrg, cache, [])
      | some _keys =>
        match resolveRole env cache orgName roleName with
        | (.error e, cache1, calls) => (.roleLookupFailed e, cache1, calls)
        | (.ok roleId, cache1, calls) =>
          match mode with
          | .create =>
            let name := if pyStrip row.name = "" then email else pyStrip row.name
            match create_and_invite_user env orgName name email roleId with
            | (.error e, moreCalls) => (.createFailed e, cache1, calls ++ moreCalls)
            | (.ok _, moreCalls) => (.createSucceeded, cache1, calls ++ moreCalls)
          | .delete =>
            match delete_user env orgName email with
            | (.error e, moreCalls) => (.deleteFailed e, cache1, calls ++ moreCalls)
            | (.ok .notFound, moreCalls) =>
              (.deleteUserNotFound, cache1, calls ++ moreCalls)
            | (.ok .disabled, moreCalls) =>
              (.deleteSucceeded, cache1, calls ++ moreCalls)

/-- The row loop over one CSV file, threading the role cache and
accumulating one outcome per row. -/
def processRows (env : Env) (orgMap : List (String × (String × String)))
    (mode : Mode) (cache : Cache) :
    List Row → List RowOutcome × Cache × List Call
  | [] => ([], cache, [])
  | row :: rest =>
    let (o, cache1, calls) := processRow env orgMap mode cache row
    let (os, cache2, moreCalls) := processRows env orgMap mode cache1 rest
    (o :: os, cache2, calls ++ moreCalls)

/-- One S3 event record: the bucket and (URL-decoded) object key. -/
structure S3Record where
  bucket : String
  key : String
deriving DecidableEq, Repr

/-- What one S3 record leaves behind: the per-row outcomes and whether
the cleanup deletion of the batch file succeeded (its failure is only
logged). -/
structure RecordResult where
  outcomes : List RowOutcome
  cleanupOk : Bool
deriving DecidableEq, Repr

/-- Embedding of the per-record body of `lambda_handler` (app.py lines
186–241): dispatch on the key suffix (an unrecognised key is skipped with
no calls at all), read the CSV, run the row loop, then delete the
processed CSV unconditionally, catching a deletion failure. -/
def processRecord (env : Env) (orgMap : List (String × (String × String)))
    (cache : Cache) (rec : S3Record) :
    RecordResult × Cache × List Call :=
  match modeOf rec.key with
  | none => (⟨[], true⟩, cache, [])
  | some mode =>
    let rows := env.csvRows rec.bucket rec.key
    let (os, cache1, calls) := processRows env orgMap mode cache rows
    let ok := match env.s3DeleteResp rec.bucket rec.key with
      | .ok _ => true
      | .error _ => false
    (⟨os, ok⟩, cache1, calls ++ [.s3Delete rec.bucket rec.key])

/-- The record loop of `lambda_handler`, threading the role cache shared
by all records of one invocation. -/
def processRecords (env : Env) (orgMap : List (String × (String × String)))
    (cache : Cache) : List S3Record → List RecordResult × Cache × List Call
  | [] => ([], cache, [])
  | rec :: rest =>
    let (r, cache1, calls) := processRecord env orgMap cache rec
    let (rs, cache2, moreCalls) := processRecords env orgMap cache1 rest
    (r :: rs, cache2, calls ++ moreCalls)

/-- Embedding of `lambda_handler` (app.py lines 170–241): an empty record
list returns immediately; otherwise the org→credentials map is built from
the secret payload and every record is processed with a fresh role
cache. -/
def lambda_handler (env : Env) (records : List S3Record) :
    List RecordResult × List Call :=
  match records with
  | [] => ([], [])
  | _ =>
    let (rs, _, calls) := processRecords env env.secretOrgs emptyCache records
    (rs, calls)

/-!
Embedding of the pending-user reporter,
`src/user-pending-check/src/app/lambda_function.py`.
-/

/-- One user record of a GET /api/v2/users response page: `user["id"]`,
`user["attributes"]["email"]`, `user["attributes"]["name"]` and
`user["attributes"]["status"]`.  An absent attribute is modelled as the
empty string (the code reads them with `.get`, and its `or` test treats
`None` and `""` alike). -/
structure PUser where
  id : String
  email : String
  name : String
  status : String
deriving DecidableEq, Repr

/-- One response page of the paginated user listing: `body["data"]` and
the optional next-page link `body["links"]["next"]`. -/
structure Page where
  data : List PUser
  next : Option String
deriving DecidableEq, Repr

/-- Functional model of the reporter's environment.  `page org url` is
the response to a GET of `url` with the organisation's credentials (the
first request additionally carries the `page[size]` and
`filter[status]=Pending` query parameters; follow-up URLs embed their
parameters).  `.error ()` models a raised `requests.RequestException`.
`orgs` is the secret payload's organisation list. -/
structure PEnv where
  page : (org url : String) → Except Unit Page
  orgs : List (String × (String × String))

/-- Observable event of the `list_users` generator: a page request, or
one user record yielded to the consumer. -/
inductive PEvent where
  | request (org url : String)
  | yielded (u : PUser)
deriving DecidableEq, Repr

/-- The fixed first-request URL of `list_users`
(`https://api.{DATADOG_SITE}/api/v2/users` with the default site). -/
def initialUsersUrl : String := "https://api.datadoghq.com/api/v2/users"

/-- Embedding of the `while url:` loop of `list_users` (lambda_function.py
lines 51–84): request the current URL, raise on a transport error, yield
the page's records, then continue with the `links.next` URL if present
and stop otherwise.  `fuel` bounds the page chain so the recursion is
total; it is a model artifact, not part of the code. -/
def listUsersFrom (env : PEnv) (org : String) :
    Nat → String → Except Unit (List PUser) × List PEvent
  | 0, _ => (.error (), [])
  | fuel + 1, url =>
    match env.page org url with
    | .error _ => (.error (), [.request org url])
    | .ok pg =>
      match pg.next with
      | none => (.ok pg.data, .request org url :: pg.data.map .yielded)
      | some nextUrl =>
        let (r, evs) := listUsersFrom env org fuel nextUrl
        (match r with
         | .ok rest => .ok (pg.data ++ rest)
         | .error e => .error e,
         .request org url :: pg.data.map .yielded ++ evs)

/-- The `list_users` generator, started at the fixed initial URL. -/
def list_users (env : PEnv) (org : String) (fuel : Nat) :
    Except Unit (List PUser) × List PEvent :=
  listUsersFrom env org fuel initialUsersUrl

/-- One projected entry of the pending report: `{id, email, name}`. -/
structure PendingUser where
  id : String
  email : String
  name : String
deriving DecidableEq, Repr

/-- Embedding of `fetch_invite_pending` (lambda_function.py lines
91–109): walk the full listing, keep the users whose lower-cased status
is `pending`, and project each to `{id, email, name}`.  An exception from
the generator propagates. -/
def fetch_invite_pending (env : PEnv) (org : String) (fuel : Nat) :
    Except Unit (List PendingUser) :=
  (list_users env org fuel).1.map fun users =>
    (users.filter fun u => pyLower u.status == "pending").map
      fun u => ⟨u.id, u.email, u.name⟩

/-- Right-pad a string with spaces to the given character width, the
semantics of a Python `f"{s:<w}"` format item: a string at least `w`
characters long is unchanged. -/
def padRight (s : String) (w : Nat) : String :=
  s.pushn ' ' (w - s.length)

/-- The name column of a report line: `u['name'] or '-'`. -/
def nameOrDash (n : String) : String :=
  if n = "" then "-" else n

/-- Embedding of the per-user report line (lambda_function.py line 133):
`f"{u['email']:<35} {u['name'] or '-':<25} id:{u['id']}"`. -/
def formatUserLine (u : PendingUser) : String :=
  padRight u.email 35 ++ " " ++ padRight (nameOrDash u.name) 25 ++ " id:" ++ u.id

/-- Lines printed for one organisation of the report (lambda_function.py
lines 127–133). -/
def orgLines (org : String) (users : List PendingUser) : List String :=
  ("=== " ++ org ++ " ===") ::
    (if users.isEmpty then ["招待保留ユーザはありません"]
     else users.map formatUserLine)

/-- All lines of the human-readable report (lambda_function.py lines
125–133). -/
def reportLines (report : List (String × List PendingUser)) : List String :=
  "Invite Pending Users" :: report.flatMap fun p => orgLines p.1 p.2

/-- Structured response of the reporter: status code 200, the aggregate
per-organisation report (serialised as the JSON body with
`ensure_ascii=False`), and the log lines printed alongside. -/
structure PendingResponse where
  statusCode : Nat
  report : List (String × List PendingUser)
  logLines : List String
deriving DecidableEq, Repr

/-- The organisation loop of the reporter's `lambda_handler`
(lambda_function.py lines 120–122): fetch each organisation's pending
users in order; an exception from any fetch propagates and aborts the
whole loop. -/
def collectReport (env : PEnv) (fuel : Nat) :
    List (String × (String × String)) →
    Except Unit (List (String × List PendingUser))
  | [] => .ok []
  | (org, _keys) :: rest =>
    match fetch_invite_pending env org fuel with
    | .error e => .error e
    | .ok users =>
      match collectReport env fuel rest with
      | .error e => .error e
      | .ok r => .ok ((org, users) :: r)

/-- Embedding of the reporter's `lambda_handler` (lambda_function.py
lines 116–140): aggregate all organisations, print the report, and
return a 200 response; any per-organisation failure propagates to the
caller and no response is produced. -/
def pending_lambda_handler (env : PEnv) (fuel : Nat) :
    Except Unit PendingResponse :=
  match collectReport env fuel env.orgs with
  | .error e => .error e
  | .ok report => .ok ⟨200, report, reportLines report⟩

/-- Reading of the spec sentence for the report line, for comparison with
the code: a string left-padded with spaces to the given width (padding
added on the left). -/
def padLeftSpec (s : String) (w : Nat) : String :=
  String.mk (List.replicate (w - s.length) ' ') ++ s

/-!
Call classifiers, used to count the calls of one kind inside a trace.
-/

/-- Test for a role-listing call. -/
def Call.isRoleList : Call → Bool
  | .listRoles _ => true
  | _ => false

/-- Test for a user-creation call. -/
def Call.isCreate : Call → Bool
  | .createUser _ _ _ _ => true
  | _ => false

/-- Test for an invitation call. -/
def Call.isInvite : Call → Bool
  | .sendInvite _ _ => true
  | _ => false

/-- Test for a user-listing call. -/
def Call.isUserList : Call → Bool
  | .listUsers _ => true
  | _ => false

/-- Test for a user-disable call. -/
def Call.isDisable : Call → Bool
  | .disableUser _ _ => true
  | _ => false

/-- Test for an S3 object deletion. -/
def Call.isS3Delete : Call → Bool
  | .s3Delete _ _ => true
  | _ => false

/-- Test for a page request of the reporter. -/
def PEvent.isRequest : PEvent → Bool
  | .request _ _ => true
  | _ => false

/-!
Concrete sample data, used to instantiate the theorems on explicit
inputs.
-/

/-- A small concrete user directory for the tenant `acme`. -/
def sampleUsers : List DirUser := [⟨"u-1", "A@x.com"⟩, ⟨"u-2", "b@x.com"⟩]

/-- A concrete provisioning environment: the tenant `acme` knows one role
and two users; creating `bad@x.com` fails; inviting the user created for
`noinvite@x.com` fails; every other call succeeds. -/
def sampleEnv : Env where
  rolesResp := fun org =>
    if org = "acme" then .ok [⟨"42", "Datadog Admin Role"⟩] else .error ()
  createResp := fun _org email _name _roleId =>
    if email = "bad@x.com" then .error () else .ok ("id-" ++ email)
  inviteResp := fun _org userId =>
    if userId = "id-noinvite@x.com" then .error () else .ok ()
  usersResp := fun org =>
    if org = "acme" then .ok sampleUsers else .error ()
  disableResp := fun _ _ => .ok ()
  s3DeleteResp := fun _ _ => .ok ()
  csvRows := fun _ _ => []
  secretOrgs := [("acme", ("api", "app"))]

/-- A variant of `sampleEnv` in which every user-creation call fails. -/
def sampleEnvCreateDown : Env :=
  { sampleEnv with createResp := fun _ _ _ _ => .error () }

/-- A variant of `sampleEnv` whose role listing for `acme` fails. -/
def sampleEnvRolesDown : Env :=
  { sampleEnv with rolesResp := fun _ => .error () }

/-- A batch environment: every S3 object is read as one valid Create row
followed by one malformed (empty-email) row. -/
def sampleEnvBatch : Env :=
  { sampleEnv with csvRows := fun _ _ =>
      [⟨"a@x.com", "", "acme", "Datadog Admin Role"⟩,
       ⟨"", "", "acme", "Datadog Admin Role"⟩] }

/-- A variant of `sampleEnvBatch` whose S3 deletions fail. -/
def sampleEnvBatchS3Down : Env :=
  { sampleEnvBatch with s3DeleteResp := fun _ _ => .error () }

/-- A concrete three-page reporter environment for the tenant `acme`: the
initial URL links to `next1`, which links to `next2`, which is the last
page. -/
def samplePEnv : PEnv where
  page := fun org url =>
    if org = "acme" then
      if url = initialUsersUrl then
        .ok ⟨[⟨"u-1", "a@x.com", "Alice", "Pending"⟩], some "next1"⟩
      else if url = "next1" then
        .ok ⟨[], some "next2"⟩
      else if url = "next2" then
        .ok ⟨[⟨"u-2", "b@x.com", "", "Active"⟩, ⟨"u-3", "c@x.com", "Carl", "Pending"⟩],
             none⟩
      else .error ()
    else .error ()
  orgs := [("acme", ("api", "app"))]

/-- A reporter environment whose only tenant's listing fails. -/
def samplePEnvDown : PEnv where
  page := fun _ _ => .error ()
  orgs := [("acme", ("api", "app"))]

/-!
Theorems.
-/

/-- Helper: one role resolution issues at most one call, and that call is
the role listing for the row's organisation. -/
theorem resolveRole_calls (env : Env) (cache : Cache) (org roleName : String) :
    (resolveRole env cache org roleName).2.2 = [] ∨
    (resolveRole env cache org roleName).2.2 = [.listRoles org] := by
  unfold resolveRole get_role_id
  split
  · rcases henv : env.rolesResp org with e | roles
    · simp [henv]
    · rcases hf : findRole roles roleName with _ | id <;> simp [henv, hf]
  · simp

/-- C8: in the Delete flow, when the tenant's user listing holds no user
whose email equals the row's email case-insensitively, the outcome is the
non-fatal UserNotFound warning and zero disable calls are issued (the
trace is just the one listing call); when a matching user is found,
exactly one disable call is issued, for that (first matching) user. -/
theorem delete_flow_search_then_disable (env : Env) (org email : String)
    (users : List DirUser) (h : env.usersResp org = .ok users) :
    ((∀ u ∈ users, pyLower u.email ≠ pyLower email) →
      delete_user env org email = (.ok .notFound, [.listUsers org])) ∧
    (∀ u, findUserByEmail users email = some u →
      (delete_user env org email).2.filter Call.isDisable =
        [.disableUser org u.id]) := by
  constructor
  · intro hnone
    have hfind : findUserByEmail users email = none := by
      rw [findUserByEmail, List.find?_eq_none]
      intro u hu
      simpa using hnone u hu
    simp [delete_user, h, hfind]
  · intro u hu
    cases hd : env.disableResp org u.id <;>
      simp [delete_user, h, findUserByEmail] at hu ⊢ <;>
      simp [hu, hd, Call.isDisable]

/-- Witness for C8 on the concrete sample directory: an absent email
gives the warning outcome with no disable call; a present email (in a
different letter case) gives exactly one disable call for that user. -/
theorem delete_flow_search_then_disable_witness :
    delete_user sampleEnv "acme" "c@x.com" = (.ok .notFound, [.listUsers "acme"]) ∧
    (delete_user sampleEnv "acme" "B@X.com").2.filter Call.isDisable =
      [.disableUser "acme" "u-2"] := by
  refine ⟨(delete_flow_search_then_disable sampleEnv "acme" "c@x.com" sampleUsers
      rfl).1 (by decide),
    (delete_flow_search_then_disable sampleEnv "acme" "B@X.com" sampleUsers
      rfl).2 ⟨"u-2", "b@x.com"⟩ (by decide)⟩

/-- C2: for a valid Create row with a resolvable tenant and role, exactly
one create call and (once the create succeeded) exactly one invite call
are issued, in that order; the row succeeds exactly when both calls
succeed; a failed invite after a successful create leaves the row Failed
with the invite error and triggers no disable (no compensating deletion
of the created user). -/
theorem create_row_one_create_one_invite (env : Env)
    (orgMap : List (String × (String × String))) (cache : Cache) (row : Row)
    (he : pyStrip row.email ≠ "") (ho : pyStrip row.org ≠ "")
    (hr : pyStrip row.role ≠ "")
    (keys : String × String) (hk : orgMap.lookup (pyStrip row.org) = some keys)
    (roleId : String) (cache1 : Cache) (rcalls : List Call)
    (hres : resolveRole env cache (pyStrip row.org) (pyStrip row.role) =
      (.ok roleId, cache1, rcalls)) :
    (env.createResp (pyStrip row.org) (pyStrip row.email)
        (if pyStrip row.name = "" then pyStrip row.email else pyStrip row.name) roleId =
        .error () →
      processRow env orgMap .create cache row =
        (.createFailed .createFailed, cache1,
         rcalls ++ [.createUser (pyStrip row.org) (pyStrip row.email)
           (if pyStrip row.name = "" then pyStrip row.email else pyStrip row.name) roleId])) ∧
    (∀ uid, env.createResp (pyStrip row.org) (pyStrip row.email)
        (if pyStrip row.name = "" then pyStrip row.email else pyStrip row.name) roleId =
        .ok uid →
      (processRow env orgMap .create cache row).2.2 =
        rcalls ++ [.createUser (pyStrip row.org) (pyStrip row.email)
          (if pyStrip row.name = "" then pyStrip row.email else pyStrip row.name) roleId,
          .sendInvite (pyStrip row.org) uid] ∧
      ((processRow env orgMap .create cache row).1 = .createSucceeded ↔
        env.inviteResp (pyStrip row.org) uid = .ok ()) ∧
      (env.inviteResp (pyStrip row.org) uid = .error () →
        (processRow env orgMap .create cache row).1 = .createFailed .inviteFailed)) ∧
    rcalls.filter Call.isCreate = [] ∧ rcalls.filter Call.isInvite = [] ∧
    (processRow env orgMap .create cache row).2.2.filter Call.isDisable = [] := by
  have hrc : rcalls = [] ∨ rcalls = [.listRoles (pyStrip row.org)] := by
    have := resolveRole_calls env cache (pyStrip row.org) (pyStrip row.role)
    rw [hres] at this
    exact this
  refine ⟨?_, ?_, ?_, ?_, ?_⟩
  · intro hcr
    simp [processRow, he, ho, hr, hk, hres, create_and_invite_user, hcr]
  · intro uid hcr
    cases hi : env.inviteResp (pyStrip row.org) uid <;>
      simp [processRow, he, ho, hr, hk, hres, create_and_invite_user, hcr, hi]
  · rcases hrc with h | h <;> simp [h, Call.isCreate]
  · rcases hrc with h | h <;> simp [h, Call.isInvite]
  · cases hcr : env.createResp (pyStrip row.org) (pyStrip row.email)
        (if pyStrip row.name = "" then pyStrip row.email else pyStrip row.name) roleId with
    | error e =>
      rcases hrc with h | h <;>
        simp [processRow, he, ho, hr, hk, hres, create_and_invite_user, hcr, h,
          Call.isDisable, List.filter_append]
    | ok uid =>
      cases hi : env.inviteResp (pyStrip row.org) uid <;>
        rcases hrc with h | h <;>
          simp [processRow, he, ho, hr, hk, hres, create_and_invite_user, hcr, hi, h,
            Call.isDisable, List.filter_append]

/-- Witness for C2 on a concrete valid Create row: the trace is one role
listing, one create, one invite, in that order, and the row succeeds. -/
theorem create_row_one_create_one_invite_witness :
    (processRow sampleEnv sampleEnv.secretOrgs .create emptyCache
        ⟨" a@x.com ", " ", "acme", "datadog admin role"⟩).2.2 =
      [.listRoles "acme", .createUser "acme" "a@x.com" "a@x.com" "42",
        .sendInvite "acme" "id-a@x.com"] ∧
    (processRow sampleEnv sampleEnv.secretOrgs .create emptyCache
        ⟨" a@x.com ", " ", "acme", "datadog admin role"⟩).1 = .createSucceeded := by
  have h := create_row_one_create_one_invite sampleEnv sampleEnv.secretOrgs emptyCache
    ⟨" a@x.com ", " ", "acme", "datadog admin role"⟩ (by decide) (by decide) (by decide)
    ("api", "app") (by decide) "42"
    (cacheInsert emptyCache ("acme", "datadog admin role") "42") [.listRoles "acme"] rfl
  have h2 := h.2.1 "id-a@x.com" rfl
  exact ⟨h2.1, h2.2.1.mpr rfl⟩


/-- Helper: a cache miss with a successful listing and a matching role
caches the match and returns it, after one listing call. -/
theorem resolveRole_miss_found (env : Env) (cache : Cache) (org roleName : String)
    (roles : List Role) (id : String) (hmiss : cache (org, roleName) = "")
    (henv : env.rolesResp org = .ok roles) (hf : findRole roles roleName = some id) :
    resolveRole env cache org roleName =
      (.ok id, cacheInsert cache (org, roleName) id, [.listRoles org]) := by
  unfold resolveRole get_role_id
  rw [if_pos hmiss]
  simp [henv, hf, cacheInsert]

/-- Helper: a cache miss with a failing listing call leaves the cache as
it was and raises the transport error. -/
theorem resolveRole_miss_transport (env : Env) (cache : Cache) (org roleName : String)
    (hmiss : cache (org, roleName) = "") (henv : env.rolesResp org = .error ()) :
    resolveRole env cache org roleName = (.error .transport, cache, [.listRoles org]) := by
  unfold resolveRole get_role_id
  rw [if_pos hmiss]
  simp [henv]

/-- Helper: a cache miss whose listing holds no matching role leaves the
cache as it was and raises the not-found error. -/
theorem resolveRole_miss_notFound (env : Env) (cache : Cache) (org roleName : String)
    (roles : List Role) (hmiss : cache (org, roleName) = "")
    (henv : env.rolesResp org = .ok roles) (hf : findRole roles roleName = none) :
    resolveRole env cache org roleName = (.error .notFound, cache, [.listRoles org]) := by
  unfold resolveRole get_role_id
  rw [if_pos hmiss]
  simp [henv, hf]

/-- Helper: a cache hit returns the cached identifier with no call. -/
theorem resolveRole_hit (env : Env) (cache : Cache) (org roleName : String)
    (hhit : cache (org, roleName) ≠ "") :
    resolveRole env cache org roleName = (.ok (cache (org, roleName)), cache, []) := by
  unfold resolveRole
  rw [if_neg hhit]

/-- Helper: a successful `findRole` returns the id of the first role of
the listing whose name matches case-insensitively. -/
theorem findRole_first (roles : List Role) (roleName id : String)
    (h : findRole roles roleName = some id) :
    ∃ pre r post, roles = pre ++ r :: post ∧ r.id = id ∧
      pyLower r.name = pyLower roleName ∧
      ∀ q ∈ pre, pyLower q.name ≠ pyLower roleName := by
  induction roles with
  | nil => simp [findRole] at h
  | cons a rest ih =>
    by_cases ha : pyLower a.name = pyLower roleName
    · rw [findRole, List.find?_cons_of_pos _ (by simpa using ha)] at h
      simp at h
      exact ⟨[], a, rest, rfl, h, ha, by simp⟩
    · rw [findRole, List.find?_cons_of_neg _ (by simpa using ha)] at h
      obtain ⟨pre, r, post, hr, hid, hname, hpre⟩ := ih (by rw [findRole]; exact h)
      refine ⟨a :: pre, r, post, by simp [hr], hid, hname, ?_⟩
      intro q hq
      rcases List.mem_cons.mp hq with rfl | hq
      · exact ha
      · exact hpre q hq

/-- C3: on a cache miss for a (tenant, role-name) key, the resolver issues
exactly one role-listing call; when the listing returns and a
case-insensitive match exists, the first match is cached under the key and
returned, and a later lookup of the same key returns the cached identifier
with no listing call; a failed lookup (transport error or no match) caches
nothing, leaving the trace at one listing call and the cache unchanged, so
a later row with the same key retries the listing (the miss branch applies
again); on a cache hit no listing call is made. -/
theorem role_cache_miss_hit_retry (env : Env) (cache : Cache) (org roleName : String) :
    (cache (org, roleName) = "" →
      (resolveRole env cache org roleName).2.2 = [.listRoles org] ∧
      (∀ roles id, env.rolesResp org = .ok roles → findRole roles roleName = some id →
        resolveRole env cache org roleName =
          (.ok id, cacheInsert cache (org, roleName) id, [.listRoles org]) ∧
        (∃ pre r post, roles = pre ++ r :: post ∧ r.id = id ∧
          pyLower r.name = pyLower roleName ∧
          ∀ q ∈ pre, pyLower q.name ≠ pyLower roleName) ∧
        (id ≠ "" →
          resolveRole env (cacheInsert cache (org, roleName) id) org roleName =
            (.ok id, cacheInsert cache (org, roleName) id, []))) ∧
      (∀ e, (resolveRole env cache org roleName).1 = .error e →
        (resolveRole env cache org roleName).2.1 = cache ∧
        (resolveRole env cache org roleName).2.2 = [.listRoles org])) ∧
    (cache (org, roleName) ≠ "" →
      resolveRole env cache org roleName = (.ok (cache (org, roleName)), cache, [])) := by
  constructor
  · intro hmiss
    have htrace : (resolveRole env cache org roleName).2.2 = [.listRoles org] := by
      rcases henv : env.rolesResp org with e | roles
      · rw [resolveRole_miss_transport env cache org roleName hmiss henv]
      · rcases hf : findRole roles roleName with _ | id
        · rw [resolveRole_miss_notFound env cache org roleName roles hmiss henv hf]
        · rw [resolveRole_miss_found env cache org roleName roles id hmiss henv hf]
    refine ⟨htrace, ?_, ?_⟩
    · intro roles id henv hf
      have hkey : cacheInsert cache (org, roleName) id (org, roleName) = id := by
        simp [cacheInsert]
      refine ⟨resolveRole_miss_found env cache org roleName roles id hmiss henv hf,
        findRole_first roles roleName id hf, ?_⟩
      intro hid
      rw [resolveRole_hit env _ org roleName (by rw [hkey]; exact hid), hkey]
    · intro e herr
      refine ⟨?_, htrace⟩
      rcases henv : env.rolesResp org with e2 | roles
      · rw [resolveRole_miss_transport env cache org roleName hmiss henv]
      · rcases hf : findRole roles roleName with _ | id
        · rw [resolveRole_miss_notFound env cache org roleName roles hmiss henv hf]
        · rw [resolveRole_miss_found env cache org roleName roles id hmiss henv hf] at herr
          simp at herr
  · exact resolveRole_hit env cache org roleName

/-- Witness for C3 on the concrete sample tenant: a cold lookup lists and
caches, the next lookup is served from the cache with no call, and a
lookup against a failing listing leaves the cache empty with one listing
call in the trace. -/
theorem role_cache_miss_hit_retry_witness :
    resolveRole sampleEnv emptyCache "acme" "datadog admin role" =
      (.ok "42", cacheInsert emptyCache ("acme", "datadog admin role") "42",
       [.listRoles "acme"]) ∧
    resolveRole sampleEnv (cacheInsert emptyCache ("acme", "datadog admin role") "42")
        "acme" "datadog admin role" =
      (.ok "42", cacheInsert emptyCache ("acme", "datadog admin role") "42", []) ∧
    (resolveRole sampleEnvRolesDown emptyCache "acme" "datadog admin role").2.1 =
      emptyCache ∧
    (resolveRole sampleEnvRolesDown emptyCache "acme" "datadog admin role").2.2 =
      [.listRoles "acme"] := by
  have h := (role_cache_miss_hit_retry sampleEnv emptyCache "acme"
    "datadog admin role").1 rfl
  have hm := h.2.1 [⟨"42", "Datadog Admin Role"⟩] "42" rfl (by decide)
  have herr := ((role_cache_miss_hit_retry sampleEnvRolesDown emptyCache "acme"
    "datadog admin role").1 rfl).2.2 .transport rfl
  exact ⟨hm.1, hm.2.2 (by decide), herr.1, herr.2⟩

/-- C10: the role cache key preserves the letter case of the role name:
two lookups for the same tenant whose role names differ only in case use
distinct cache entries, so the second lookup issues its own role-listing
call even right after the first succeeded, and (against the unchanged
listing) both resolve to the same role identifier through the
case-insensitive match. -/
theorem role_cache_key_preserves_case (env : Env) (cache : Cache)
    (org r1 r2 : String) (hne : r1 ≠ r2) (hcase : pyLower r1 = pyLower r2)
    (h1 : cache (org, r1) = "") (h2 : cache (org, r2) = "")
    (roles : List Role) (hroles : env.rolesResp org = .ok roles)
    (id : String) (hid : findRole roles r1 = some id) :
    resolveRole env cache org r1 =
      (.ok id, cacheInsert cache (org, r1) id, [.listRoles org]) ∧
    resolveRole env (cacheInsert cache (org, r1) id) org r2 =
      (.ok id, cacheInsert (cacheInsert cache (org, r1) id) (org, r2) id,
       [.listRoles org]) := by
  have hid2 : findRole roles r2 = some id := by
    rw [findRole] at hid ⊢
    have hp : (fun r : Role => pyLower r.name == pyLower r2) =
        (fun r : Role => pyLower r.name == pyLower r1) := by
      funext r; rw [hcase]
    rw [hp]; exact hid
  have hkey : cacheInsert cache (org, r1) id (org, r2) = "" := by
    have : (if ((org, r2) : String × String) = (org, r1) then id else cache (org, r2)) =
        cache (org, r2) :=
      if_neg fun hq => Ne.symm hne (congrArg Prod.snd hq)
    simp only [cacheInsert]
    rw [this, h2]
  exact ⟨resolveRole_miss_found env cache org r1 roles id h1 hroles hid,
    resolveRole_miss_found env _ org r2 roles id hkey hroles hid2⟩

/-- Witness for C10: `Datadog Admin Role` then `datadog admin role` for
the same tenant both list and both resolve to role id 42. -/
theorem role_cache_key_preserves_case_witness :
    resolveRole sampleEnv emptyCache "acme" "Datadog Admin Role" =
      (.ok "42", cacheInsert emptyCache ("acme", "Datadog Admin Role") "42",
       [.listRoles "acme"]) ∧
    resolveRole sampleEnv (cacheInsert emptyCache ("acme", "Datadog Admin Role") "42")
        "acme" "datadog admin role" =
      (.ok "42",
       cacheInsert (cacheInsert emptyCache ("acme", "Datadog Admin Role") "42")
         ("acme", "datadog admin role") "42",
       [.listRoles "acme"]) :=
  role_cache_key_preserves_case sampleEnv emptyCache "acme" "Datadog Admin Role"
    "datadog admin role" (by decide) (by decide) rfl rfl
    [⟨"42", "Datadog Admin Role"⟩] rfl "42" (by decide)



/-- Counterexample for C1: a Delete-mode row with a non-empty email but an
empty role name is rejected (`Missing org/role`) before any call, and a
complete Delete-mode row does perform role resolution — its trace opens
with a role-listing call — before the search-then-disable flow. -/
theorem delete_row_only_email_required_cex :
    (processRow sampleEnv sampleEnv.secretOrgs .delete emptyCache
       ⟨"b@x.com", "", "acme", ""⟩).1 = .missingOrgRole ∧
    (processRow sampleEnv sampleEnv.secretOrgs .delete emptyCache
       ⟨"b@x.com", "", "acme", ""⟩).2.2 = [] ∧
    (processRow sampleEnv sampleEnv.secretOrgs .delete emptyCache
       ⟨"b@x.com", "", "acme", "Datadog Admin Role"⟩).2.2 =
      [.listRoles "acme", .listUsers "acme", .disableUser "acme" "u-2"] := by
  refine ⟨by decide, by decide, by decide⟩

/-- C1 amended: a Delete-mode row requires a non-empty email, org and
role; a delete row whose org or role is missing is rejected with the
validation outcome and no network call; for a complete delete row with a
known org, role resolution runs before the search-then-disable flow: a
failed resolution skips the row with only the listing call issued, and a
successful resolution prefixes the delete-flow calls with the resolution
calls. -/
theorem delete_row_requires_org_and_role (env : Env)
    (orgMap : List (String × (String × String))) (cache : Cache) (row : Row)
    (he : pyStrip row.email ≠ "") :
    ((pyStrip row.org = "" ∨ pyStrip row.role = "") →
      processRow env orgMap .delete cache row = (.missingOrgRole, cache, [])) ∧
    (∀ keys, pyStrip row.org ≠ "" → pyStrip row.role ≠ "" →
      orgMap.lookup (pyStrip row.org) = some keys →
      (∀ e rcache, resolveRole env cache (pyStrip row.org) (pyStrip row.role) =
          (.error e, rcache, [.listRoles (pyStrip row.org)]) →
        processRow env orgMap .delete cache row =
          (.roleLookupFailed e, rcache, [.listRoles (pyStrip row.org)])) ∧
      (∀ roleId rcache rcalls,
        resolveRole env cache (pyStrip row.org) (pyStrip row.role) =
          (.ok roleId, rcache, rcalls) →
        (processRow env orgMap .delete cache row).2.2 =
          rcalls ++ (delete_user env (pyStrip row.org) (pyStrip row.email)).2)) := by
  constructor
  · rintro (h | h) <;> simp [processRow, he, h]
  · intro keys ho hr hk
    constructor
    · intro e rcache hres
      simp [processRow, he, ho, hr, hk, hres]
    · intro roleId rcache rcalls hres
      rcases hd : delete_user env (pyStrip row.org) (pyStrip row.email) with ⟨dres, dcalls⟩
      rcases dres with e | dr
      · simp [processRow, he, ho, hr, hk, hres, hd]
      · rcases dr <;> simp [processRow, he, ho, hr, hk, hres, hd]

/-- Witness for the amended C1: a delete row with a blank role is
rejected with no calls; a failing role listing skips a complete delete
row after one listing call; a successful resolution runs the delete flow
right after it. -/
theorem delete_row_requires_org_and_role_witness :
    processRow sampleEnv sampleEnv.secretOrgs .delete emptyCache
      ⟨"b@x.com", "", "acme", " "⟩ = (.missingOrgRole, emptyCache, []) ∧
    processRow sampleEnvRolesDown sampleEnv.secretOrgs .delete emptyCache
      ⟨"b@x.com", "", "acme", "Datadog Admin Role"⟩ =
      (.roleLookupFailed .transport, emptyCache, [.listRoles "acme"]) ∧
    (processRow sampleEnv sampleEnv.secretOrgs .delete emptyCache
       ⟨"b@x.com", "", "acme", "Datadog Admin Role"⟩).2.2 =
      [.listRoles "acme"] ++ (delete_user sampleEnv "acme" "b@x.com").2 := by
  refine ⟨?_, ?_, ?_⟩
  · exact (delete_row_requires_org_and_role sampleEnv sampleEnv.secretOrgs emptyCache
      ⟨"b@x.com", "", "acme", " "⟩ (by decide)).1 (Or.inr (by decide))
  · exact ((delete_row_requires_org_and_role sampleEnvRolesDown sampleEnv.secretOrgs
      emptyCache ⟨"b@x.com", "", "acme", "Datadog Admin Role"⟩ (by decide)).2
      ("api", "app") (by decide) (by decide) (by decide)).1 .transport emptyCache rfl
  · exact ((delete_row_requires_org_and_role sampleEnv sampleEnv.secretOrgs
      emptyCache ⟨"b@x.com", "", "acme", "Datadog Admin Role"⟩ (by decide)).2
      ("api", "app") (by decide) (by decide) (by decide)).2 "42"
      (cacheInsert emptyCache ("acme", "Datadog Admin Role") "42")
      [.listRoles "acme"] rfl



/-- Helper: unfolded form of one step of the row loop. -/
theorem processRows_cons (env : Env) (orgMap : List (String × (String × String)))
    (mode : Mode) (cache : Cache) (row : Row) (rest : List Row) :
    processRows env orgMap mode cache (row :: rest) =
      ((processRow env orgMap mode cache row).1 ::
         (processRows env orgMap mode (processRow env orgMap mode cache row).2.1 rest).1,
       (processRows env orgMap mode (processRow env orgMap mode cache row).2.1 rest).2.1,
       (processRow env orgMap mode cache row).2.2 ++
         (processRows env orgMap mode (processRow env orgMap mode cache row).2.1 rest).2.2) := by
  rw [processRows]

/-- Helper: a row whose stripped email is empty yields the validation
outcome, touches nothing and calls nothing. -/
theorem processRow_blank_email (env : Env) (orgMap : List (String × (String × String)))
    (mode : Mode) (cache : Cache) (row : Row) (h : pyStrip row.email = "") :
    processRow env orgMap mode cache row = (.missingEmail, cache, []) := by
  simp [processRow, h]

/-- Helper: the cache left by one row depends only on the role-listing
responses of the environment, never on the create, invite, search or
disable responses. -/
theorem processRow_cache_shape (env : Env) (orgMap : List (String × (String × String)))
    (mode : Mode) (cache : Cache) (row : Row) :
    (processRow env orgMap mode cache row).2.1 =
      if pyStrip row.email = "" then cache
      else if pyStrip row.org = "" ∨ pyStrip row.role = "" then cache
      else
        match orgMap.lookup (pyStrip row.org) with
        | none => cache
        | some _ => (resolveRole env cache (pyStrip row.org) (pyStrip row.role)).2.1 := by
  by_cases he : pyStrip row.email = ""
  · simp [processRow, he]
  · by_cases ho : pyStrip row.org = ""
    · simp [processRow, he, ho]
    · by_cases hr : pyStrip row.role = ""
      · simp [processRow, he, ho, hr]
      · rcases hk : orgMap.lookup (pyStrip row.org) with _ | keys
        · simp [processRow, he, ho, hr, hk]
        · rcases hres : resolveRole env cache (pyStrip row.org) (pyStrip row.role)
            with ⟨res, c1, t⟩
          rcases res with e | roleId
          · simp [processRow, he, ho, hr, hk, hres]
          · rcases mode with _ | _
            · rcases hc : create_and_invite_user env (pyStrip row.org)
                  (if pyStrip row.name = "" then pyStrip row.email else pyStrip row.name)
                  (pyStrip row.email) roleId with ⟨cres, ct⟩
              rcases cres with e | u <;> simp [processRow, he, ho, hr, hk, hres, hc]
            · rcases hd : delete_user env (pyStrip row.org) (pyStrip row.email)
                with ⟨dres, dt⟩
              rcases dres with e | dr
              · simp [processRow, he, ho, hr, hk, hres, hd]
              · rcases dr <;> simp [processRow, he, ho, hr, hk, hres, hd]

/-- C4: per-row failures are isolated: the row loop produces exactly one
outcome per row and never aborts; a malformed row (blank email) only
contributes its own validation outcome, leaving the cache, the calls and
every other row's processing exactly as without it; and the only state a
row passes to its successors — the role cache — does not depend on the
responses of its create, invite, search or disable calls, so an earlier
row's network failure cannot change a later row's outcome. -/
theorem row_failures_isolated (env : Env)
    (orgMap : List (String × (String × String))) (mode : Mode) :
    (∀ cache rows, (processRows env orgMap mode cache rows).1.length = rows.length) ∧
    (∀ cache bad rest, pyStrip bad.email = "" →
      processRows env orgMap mode cache (bad :: rest) =
        (.missingEmail :: (processRows env orgMap mode cache rest).1,
         (processRows env orgMap mode cache rest).2)) ∧
    (∀ cache pre rest,
      processRows env orgMap mode cache (pre ++ rest) =
        ((processRows env orgMap mode cache pre).1 ++
           (processRows env orgMap mode
             (processRows env orgMap mode cache pre).2.1 rest).1,
         (processRows env orgMap mode
           (processRows env orgMap mode cache pre).2.1 rest).2.1,
         (processRows env orgMap mode cache pre).2.2 ++
           (processRows env orgMap mode
             (processRows env orgMap mode cache pre).2.1 rest).2.2)) ∧
    (∀ env2 : Env, env2.rolesResp = env.rolesResp →
      ∀ cache row, (processRow env2 orgMap mode cache row).2.1 =
        (processRow env orgMap mode cache row).2.1) := by
  refine ⟨?_, ?_, ?_, ?_⟩
  · intro cache rows
    induction rows generalizing cache with
    | nil => simp [processRows]
    | cons r rs ih => simp [processRows_cons, ih]
  · intro cache bad rest h
    simp [processRows_cons, processRow_blank_email env orgMap mode cache bad h]
  · intro cache pre rest
    induction pre generalizing cache with
    | nil => simp [processRows]
    | cons r rs ih =>
      simp only [List.cons_append, processRows_cons, ih]
      simp [List.append_assoc]
  · intro env2 h cache row
    rw [processRow_cache_shape, processRow_cache_shape]
    have hres : resolveRole env2 cache (pyStrip row.org) (pyStrip row.role) =
        resolveRole env cache (pyStrip row.org) (pyStrip row.role) := by
      unfold resolveRole get_role_id
      rw [h]
    rw [hres]


/-- Witness for C4 on a concrete batch: three rows give three outcomes; a
malformed second row changes nothing about the third; a failing create
call leaves the cache exactly as a succeeding one. -/
theorem row_failures_isolated_witness :
    (processRows sampleEnv sampleEnv.secretOrgs .create emptyCache
       [⟨"a@x.com", "", "acme", "Datadog Admin Role"⟩,
        ⟨" ", "x", "acme", "Datadog Admin Role"⟩,
        ⟨"c@x.com", "", "acme", "Datadog Admin Role"⟩]).1.length = 3 ∧
    processRows sampleEnv sampleEnv.secretOrgs .create emptyCache
        (⟨" ", "x", "acme", "Datadog Admin Role"⟩ ::
          [⟨"c@x.com", "", "acme", "Datadog Admin Role"⟩]) =
      (.missingEmail :: (processRows sampleEnv sampleEnv.secretOrgs .create emptyCache
         [⟨"c@x.com", "", "acme", "Datadog Admin Role"⟩]).1,
       (processRows sampleEnv sampleEnv.secretOrgs .create emptyCache
         [⟨"c@x.com", "", "acme", "Datadog Admin Role"⟩]).2) ∧
    (processRow sampleEnvCreateDown sampleEnv.secretOrgs .create emptyCache
       ⟨"a@x.com", "", "acme", "Datadog Admin Role"⟩).2.1 =
      (processRow sampleEnv sampleEnv.secretOrgs .create emptyCache
       ⟨"a@x.com", "", "acme", "Datadog Admin Role"⟩).2.1 :=
  ⟨(row_failures_isolated sampleEnv sampleEnv.secretOrgs .create).1 emptyCache _,
   (row_failures_isolated sampleEnv sampleEnv.secretOrgs .create).2.1 emptyCache _ _
     (by decide),
   (row_failures_isolated sampleEnv sampleEnv.secretOrgs .create).2.2.2
     sampleEnvCreateDown rfl emptyCache _⟩



/-- Helper: unfolded form of `processRecord` on a recognised key. -/
theorem processRecord_some (env : Env) (orgMap : List (String × (String × String)))
    (cache : Cache) (rec : S3Record) (mode : Mode) (hm : modeOf rec.key = some mode) :
    processRecord env orgMap cache rec =
      (⟨(processRows env orgMap mode cache (env.csvRows rec.bucket rec.key)).1,
        match env.s3DeleteResp rec.bucket rec.key with
        | .ok _ => true
        | .error _ => false⟩,
       (processRows env orgMap mode cache (env.csvRows rec.bucket rec.key)).2.1,
       (processRows env orgMap mode cache (env.csvRows rec.bucket rec.key)).2.2 ++
         [.s3Delete rec.bucket rec.key]) := by
  rw [processRecord, hm]

/-- Helper: a row's processing is unchanged between two environments that
agree on the role, create, invite, user-listing and disable responses. -/
theorem processRow_congr (env2 env : Env) (h1 : env2.rolesResp = env.rolesResp)
    (h2 : env2.createResp = env.createResp) (h3 : env2.inviteResp = env.inviteResp)
    (h4 : env2.usersResp = env.usersResp) (h5 : env2.disableResp = env.disableResp)
    (orgMap : List (String × (String × String))) (mode : Mode) (cache : Cache)
    (row : Row) :
    processRow env2 orgMap mode cache row = processRow env orgMap mode cache row := by
  unfold processRow resolveRole get_role_id create_and_invite_user delete_user
  rw [h1, h2, h3, h4, h5]

/-- Helper: the row loop is unchanged between two environments that agree
on the five remote-response functions. -/
theorem processRows_congr (env2 env : Env) (h1 : env2.rolesResp = env.rolesResp)
    (h2 : env2.createResp = env.createResp) (h3 : env2.inviteResp = env.inviteResp)
    (h4 : env2.usersResp = env.usersResp) (h5 : env2.disableResp = env.disableResp)
    (orgMap : List (String × (String × String))) (mode : Mode) (cache : Cache)
    (rows : List Row) :
    processRows env2 orgMap mode cache rows = processRows env orgMap mode cache rows := by
  induction rows generalizing cache with
  | nil => rfl
  | cons r rs ih =>
    rw [processRows_cons, processRows_cons,
      processRow_congr env2 env h1 h2 h3 h4 h5 orgMap mode cache r, ih]

/-- C5: the batch source's name suffix decides its handling: a key ending
in `create_user.csv` routes to Create mode, one ending in
`delete_user.csv` to Delete mode, and any other key is skipped with no
rows processed, no call issued and the source left undeleted; for a
recognised suffix the source deletion is issued after the whole row
stream, unconditionally on row outcomes, and a failure of that deletion
(or any change confined to the S3-deletion responses) leaves the recorded
row outcomes and cache untouched. -/
theorem batch_source_routing_and_cleanup (env : Env)
    (orgMap : List (String × (String × String))) (cache : Cache) (rec : S3Record) :
    (pyEndsWith rec.key "create_user.csv" = true → modeOf rec.key = some .create) ∧
    (pyEndsWith rec.key "create_user.csv" = false →
      pyEndsWith rec.key "delete_user.csv" = true → modeOf rec.key = some .delete) ∧
    (pyEndsWith rec.key "create_user.csv" = false →
      pyEndsWith rec.key "delete_user.csv" = false → modeOf rec.key = none) ∧
    (modeOf rec.key = none →
      processRecord env orgMap cache rec = (⟨[], true⟩, cache, [])) ∧
    (∀ mode, modeOf rec.key = some mode →
      (processRecord env orgMap cache rec).1.outcomes =
        (processRows env orgMap mode cache (env.csvRows rec.bucket rec.key)).1 ∧
      (processRecord env orgMap cache rec).2.2 =
        (processRows env orgMap mode cache (env.csvRows rec.bucket rec.key)).2.2 ++
          [.s3Delete rec.bucket rec.key]) ∧
    (∀ env2 : Env, env2.rolesResp = env.rolesResp → env2.createResp = env.createResp →
      env2.inviteResp = env.inviteResp → env2.usersResp = env.usersResp →
      env2.disableResp = env.disableResp → env2.csvRows = env.csvRows →
      (processRecord env2 orgMap cache rec).1.outcomes =
        (processRecord env orgMap cache rec).1.outcomes ∧
      (processRecord env2 orgMap cache rec).2.1 =
        (processRecord env orgMap cache rec).2.1) := by
  refine ⟨?_, ?_, ?_, ?_, ?_, ?_⟩
  · intro h; simp [modeOf, h]
  · intro h h2; simp [modeOf, h, h2]
  · intro h h2; simp [modeOf, h, h2]
  · intro h; simp [processRecord, h]
  · intro mode hm
    rw [processRecord_some env orgMap cache rec mode hm]
    exact ⟨rfl, rfl⟩
  · intro env2 h1 h2 h3 h4 h5 h6
    rcases hm : modeOf rec.key with _ | mode
    · simp [processRecord, hm]
    · rw [processRecord_some env2 orgMap cache rec mode hm,
        processRecord_some env orgMap cache rec mode hm, h6,
        processRows_congr env2 env h1 h2 h3 h4 h5 orgMap mode cache
          (env.csvRows rec.bucket rec.key)]
      exact ⟨rfl, rfl⟩


/-- Witness for C5 on concrete keys: suffix routing, the skip of an
unrecognised key, the unconditional trailing cleanup call, and the
invariance of outcomes under a failing cleanup. -/
theorem batch_source_routing_and_cleanup_witness :
    modeOf "in/create_user.csv" = some .create ∧
    modeOf "in/delete_user.csv" = some .delete ∧
    modeOf "in/other.csv" = none ∧
    processRecord sampleEnvBatch sampleEnv.secretOrgs emptyCache
      ⟨"bkt", "in/other.csv"⟩ = (⟨[], true⟩, emptyCache, []) ∧
    (processRecord sampleEnvBatch sampleEnv.secretOrgs emptyCache
       ⟨"bkt", "in/create_user.csv"⟩).2.2 =
      (processRows sampleEnvBatch sampleEnv.secretOrgs .create emptyCache
        (sampleEnvBatch.csvRows "bkt" "in/create_user.csv")).2.2 ++
        [.s3Delete "bkt" "in/create_user.csv"] ∧
    (processRecord sampleEnvBatchS3Down sampleEnv.secretOrgs emptyCache
       ⟨"bkt", "in/create_user.csv"⟩).1.outcomes =
      (processRecord sampleEnvBatch sampleEnv.secretOrgs emptyCache
       ⟨"bkt", "in/create_user.csv"⟩).1.outcomes := by
  refine ⟨?_, ?_, ?_, ?_, ?_, ?_⟩
  · exact (batch_source_routing_and_cleanup sampleEnvBatch sampleEnv.secretOrgs
      emptyCache ⟨"bkt", "in/create_user.csv"⟩).1 (by decide)
  · exact (batch_source_routing_and_cleanup sampleEnvBatch sampleEnv.secretOrgs
      emptyCache ⟨"bkt", "in/delete_user.csv"⟩).2.1 (by decide) (by decide)
  · exact (batch_source_routing_and_cleanup sampleEnvBatch sampleEnv.secretOrgs
      emptyCache ⟨"bkt", "in/other.csv"⟩).2.2.1 (by decide) (by decide)
  · exact (batch_source_routing_and_cleanup sampleEnvBatch sampleEnv.secretOrgs
      emptyCache ⟨"bkt", "in/other.csv"⟩).2.2.2.1 (by decide)
  · exact ((batch_source_routing_and_cleanup sampleEnvBatch sampleEnv.secretOrgs
      emptyCache ⟨"bkt", "in/create_user.csv"⟩).2.2.2.2.1 .create (by decide)).2
  · exact ((batch_source_routing_and_cleanup sampleEnvBatch sampleEnv.secretOrgs
      emptyCache ⟨"bkt", "in/create_user.csv"⟩).2.2.2.2.2 sampleEnvBatchS3Down
      rfl rfl rfl rfl rfl rfl).1



/-- Helper: the organisation loop of the reporter fails exactly when some
organisation's pending fetch fails. -/
theorem collectReport_error_iff (env : PEnv) (fuel : Nat)
    (orgs : List (String × (String × String))) :
    collectReport env fuel orgs = .error () ↔
      ∃ p ∈ orgs, fetch_invite_pending env p.1 fuel = .error () := by
  induction orgs with
  | nil => simp [collectReport]
  | cons p rest ih =>
    obtain ⟨org, keys⟩ := p
    rcases hf : fetch_invite_pending env org fuel with e | users
    · obtain ⟨⟩ := e
      simp only [collectReport, hf]
      exact ⟨fun _ => ⟨(org, keys), List.mem_cons_self _ _, hf⟩, fun _ => by trivial⟩
    · rcases hr : collectReport env fuel rest with e | r
      · obtain ⟨⟩ := e
        simp only [collectReport, hf, hr]
        constructor
        · intro _
          obtain ⟨q, hq, hqf⟩ := ih.mp hr
          exact ⟨q, List.mem_cons_of_mem _ hq, hqf⟩
        · intro _
          trivial
      · simp only [collectReport, hf, hr]
        constructor
        · intro h
          exact absurd h (by simp)
        · rintro ⟨q, hq, hqf⟩
          rcases List.mem_cons.mp hq with rfl | hq2
          · simp [hf] at hqf
          · exact absurd (ih.mpr ⟨q, hq2, hqf⟩) (by simp [hr])

/-- C6: the pending reporter has no per-tenant error isolation: the
handler fails (raises, producing no response and no report for any
tenant) exactly when the pending-user fetch of some organisation of the
secret fails; conversely a successful handler run implies every
organisation's fetch succeeded. -/
theorem pending_report_no_tenant_isolation (env : PEnv) (fuel : Nat) :
    (pending_lambda_handler env fuel = .error () ↔
      ∃ p ∈ env.orgs, fetch_invite_pending env p.1 fuel = .error ()) ∧
    (∀ resp, pending_lambda_handler env fuel = .ok resp →
      ∀ p ∈ env.orgs, ∃ users, fetch_invite_pending env p.1 fuel = .ok users) := by
  have hiff : pending_lambda_handler env fuel = .error () ↔
      collectReport env fuel env.orgs = .error () := by
    rcases h : collectReport env fuel env.orgs with e | r
    · obtain ⟨⟩ := e
      simp [pending_lambda_handler, h]
    · simp [pending_lambda_handler, h]
  constructor
  · exact hiff.trans (collectReport_error_iff env fuel env.orgs)
  · intro resp h p hp
    rcases hf : fetch_invite_pending env p.1 fuel with e | users
    · obtain ⟨⟩ := e
      have herr : pending_lambda_handler env fuel = .error () :=
        hiff.mpr ((collectReport_error_iff env fuel env.orgs).mpr ⟨p, hp, hf⟩)
      rw [h] at herr
      cases herr
    · exact ⟨users, rfl⟩

/-- Witness for C6: with the only tenant's listing failing the handler
fails; with the healthy sample environment the handler succeeds and the
tenant's fetch is recoverable from it. -/
theorem pending_report_no_tenant_isolation_witness :
    pending_lambda_handler samplePEnvDown 5 = .error () ∧
    ∃ users, fetch_invite_pending samplePEnv "acme" 5 = .ok users := by
  constructor
  · exact (pending_report_no_tenant_isolation samplePEnvDown 5).1.mpr
      ⟨("acme", ("api", "app")), by decide, rfl⟩
  · exact (pending_report_no_tenant_isolation samplePEnv 5).2 _ rfl
      ("acme", ("api", "app")) (by decide)

/-- Helper: yielded records are not page requests. -/
theorem filter_request_map_yielded (l : List PUser) :
    (l.map PEvent.yielded).filter PEvent.isRequest = [] := by
  induction l with
  | nil => rfl
  | cons a rest ih => simp [List.filter_cons, PEvent.isRequest, ih]

/-- C7: the paginated listing requests each page by following the next
link of the previous response, yields each page's records before the next
request, and stops on a response with no next link: over a directory
split in three pages it returns the concatenation of the pages' records
in page order and issues exactly three listing calls. -/
theorem pagination_three_pages (env : PEnv) (org : String) (fuel : Nat)
    (u1 u2 : String) (p0 p1 p2 : Page)
    (h0 : env.page org initialUsersUrl = .ok p0) (n0 : p0.next = some u1)
    (h1 : env.page org u1 = .ok p1) (n1 : p1.next = some u2)
    (h2 : env.page org u2 = .ok p2) (n2 : p2.next = none)
    (hfuel : 3 ≤ fuel) :
    (list_users env org fuel).1 = .ok (p0.data ++ (p1.data ++ p2.data)) ∧
    (list_users env org fuel).2 =
      .request org initialUsersUrl :: (p0.data.map .yielded ++
        (.request org u1 :: (p1.data.map .yielded ++
          (.request org u2 :: p2.data.map .yielded)))) ∧
    ((list_users env org fuel).2.filter PEvent.isRequest).length = 3 := by
  obtain ⟨k, rfl⟩ : ∃ k, fuel = k + 1 + 1 + 1 := ⟨fuel - 3, by omega⟩
  have htrace : (list_users env org (k + 1 + 1 + 1)).2 =
      .request org initialUsersUrl :: (p0.data.map .yielded ++
        (.request org u1 :: (p1.data.map .yielded ++
          (.request org u2 :: p2.data.map .yielded)))) := by
    simp [list_users, listUsersFrom, h0, h1, h2, n0, n1, n2]
  refine ⟨?_, htrace, ?_⟩
  · simp [list_users, listUsersFrom, h0, h1, h2, n0, n1, n2]
  · rw [htrace]
    simp [List.filter_append, List.filter_cons, filter_request_map_yielded,
      PEvent.isRequest]

/-- Witness for C7 on the concrete three-page sample environment. -/
theorem pagination_three_pages_witness :
    (list_users samplePEnv "acme" 3).1 =
      .ok [⟨"u-1", "a@x.com", "Alice", "Pending"⟩, ⟨"u-2", "b@x.com", "", "Active"⟩,
           ⟨"u-3", "c@x.com", "Carl", "Pending"⟩] ∧
    ((list_users samplePEnv "acme" 3).2.filter PEvent.isRequest).length = 3 := by
  have h := pagination_three_pages samplePEnv "acme" 3 "next1" "next2"
    ⟨[⟨"u-1", "a@x.com", "Alice", "Pending"⟩], some "next1"⟩
    ⟨[], some "next2"⟩
    ⟨[⟨"u-2", "b@x.com", "", "Active"⟩, ⟨"u-3", "c@x.com", "Carl", "Pending"⟩], none⟩
    rfl rfl rfl rfl rfl rfl (by omega)
  exact ⟨h.1, h.2.2⟩



/-- Counterexample for C9: the report line of a sample pending user does
not render the email left-padded (the padding spaces are appended on the
right, not prepended), so its first 35 characters differ from the
left-padded email. -/
theorem report_line_not_left_padded_cex :
    formatUserLine ⟨"u-1", "a@x.com", "Alice"⟩ ∈
      reportLines [("acme", [⟨"u-1", "a@x.com", "Alice"⟩])] ∧
    (formatUserLine ⟨"u-1", "a@x.com", "Alice"⟩).data.take 35 ≠
      (padLeftSpec "a@x.com" 35).data := by decide

/-- Helper: the character list of `String.pushn`. -/
theorem data_pushn (s : String) (c : Char) (n : Nat) :
    (s.pushn c n).data = s.data ++ List.replicate n c := by
  induction n with
  | zero => simp [String.pushn, Nat.repeat]
  | succ m ih =>
    show ((String.pushn s c m).push c).data = _
    rw [String.data_push, ih, List.replicate_succ', List.append_assoc]

/-- Helper: the character list of the right-padding of the report
formatter. -/
theorem padRight_data (s : String) (w : Nat) :
    (padRight s w).data = s.data ++ List.replicate (w - s.length) ' ' :=
  data_pushn s ' ' (w - s.length)

/-- C9 amended: every pending user of the report owns a line of the
human-readable listing, and that line renders the email left-justified —
padded on the right with spaces — to 35 characters, one space, the name
(`-` when empty) left-justified to 25 characters, one space, then
`id:` and the identifier. -/
theorem report_user_line_right_padded (report : List (String × List PendingUser))
    (org : String) (users : List PendingUser) (u : PendingUser)
    (hmem : (org, users) ∈ report) (hu : u ∈ users) :
    formatUserLine u ∈ reportLines report ∧
    (formatUserLine u).data =
      u.email.data ++ List.replicate (35 - u.email.length) ' ' ++
        (' ' :: ((nameOrDash u.name).data ++
          List.replicate (25 - (nameOrDash u.name).length) ' ')) ++
        (' ' :: 'i' :: 'd' :: ':' :: u.id.data) := by
  constructor
  · have hline : formatUserLine u ∈ orgLines org users := by
      rw [orgLines]
      have hne : users.isEmpty = false := by
        cases users
        · cases hu
        · rfl
      rw [hne]
      simp only [Bool.false_eq_true, if_false]
      exact List.mem_cons_of_mem _ (List.mem_map_of_mem _ hu)
    rw [reportLines]
    exact List.mem_cons_of_mem _ (List.mem_flatMap.mpr ⟨(org, users), hmem, hline⟩)
  · rw [formatUserLine, String.data_append, String.data_append, String.data_append,
      String.data_append, padRight_data, padRight_data]
    simp [List.append_assoc]

/-- Witness for the amended C9 on a concrete one-user report. -/
theorem report_user_line_right_padded_witness :
    formatUserLine ⟨"u-1", "a@x.com", "Alice"⟩ ∈
      reportLines [("acme", [⟨"u-1", "a@x.com", "Alice"⟩])] ∧
    (formatUserLine (⟨"u-1", "a@x.com", "Alice"⟩ : PendingUser)).data =
      ("a@x.com").data ++ List.replicate 28 ' ' ++
        (' ' :: (("Alice").data ++ List.replicate 20 ' ')) ++
        (' ' :: 'i' :: 'd' :: ':' :: ("u-1").data) :=
  report_user_line_right_padded [("acme", [⟨"u-1", "a@x.com", "Alice"⟩])] "acme"
    [⟨"u-1", "a@x.com", "Alice"⟩] ⟨"u-1", "a@x.com", "Alice"⟩
    (List.mem_singleton.mpr rfl) (List.mem_singleton.mpr rfl)


end DatadogUtil
